/-
  Verification of the MEP Flow Designer calculation engine.

  Shallow embedding of the pure calculation functions of the repository
  (electrical, plumbing, HVAC, fire protection) into Lean 4.

  Conventions of the embedding:
  * JavaScript numbers are modelled as exact rationals (ℚ) where the source
    only performs field operations, and as reals (ℝ) where the source uses
    `Math.sqrt` / fractional `Math.pow`.
  * `Math.round` is `round` (round half towards +∞, which coincides with
    JavaScript's `Math.round` on every rational), `Math.ceil` is `Int.ceil`,
    `Math.max`/`Math.min` are `max`/`min`.
  * The functions that return a size string of the form `size + '"'` are
    modelled as returning the numeric size (the inch mark carries no
    information); `calculateWireSize` genuinely returns labels and is
    modelled with `String`.
  * `Array.prototype.find` is `List.find?`, and the JavaScript
    `find(...) || fallback` / `found?.size || fallback` idioms are
    `Option.getD` (every tabulated value is a truthy, non-zero number,
    so `||` only fires on `undefined`).
-/
import Mathlib

/-! ## Generic lemmas about `List.find?`-based ladder selection -/

/-- `find?` returns the element at the first index whose entry satisfies the
predicate. -/
theorem find?_eq_of_first {α : Type} {l : List α} {p : α → Bool} {n : ℕ} {x : α}
    (hx : l.get? n = some x) (hpx : p x = true)
    (hj : ∀ m, m < n → ∀ y, l.get? m = some y → p y = false) :
    l.find? p = some x := by
  induction l generalizing n with
  | nil => simp at hx
  | cons a tl ih =>
    cases n with
    | zero =>
      simp only [List.get?] at hx
      cases hx
      simp [List.find?_cons, hpx]
    | succ n =>
      have ha : p a = false := hj 0 (Nat.succ_pos n) a rfl
      simp only [List.get?] at hx
      rw [List.find?_cons, ha]
      exact ih hx fun m hm y hy => hj (m + 1) (Nat.succ_lt_succ hm) y hy

/-- If a stronger predicate `q` implies `p`, the first index satisfying `p`
is at most the first index satisfying `q`. -/
theorem findIdx_le_findIdx {α : Type} {p q : α → Bool}
    (h : ∀ x, q x = true → p x = true) (l : List α) :
    l.findIdx p ≤ l.findIdx q := by
  induction l with
  | nil => exact Nat.le_refl _
  | cons a tl ih =>
    by_cases hq : q a = true
    · simp [List.findIdx_cons, h a hq, hq]
    · rw [List.findIdx_cons, List.findIdx_cons]
      cases hp : p a
      · simp only [cond_false, Bool.not_eq_true] at hq ⊢
        rw [hq]
        simpa using Nat.succ_le_succ ih
      · simp [Nat.zero_le]

/-- Monotonicity of "first tabulated value `≥` requirement, else default"
selection on a sorted ladder, for a plain list of thresholds. -/
theorem find_ge_getD_mono {α : Type} [LinearOrder α] (l : List α) (d : α)
    (hl : l.Pairwise (· ≤ ·)) (hd : ∀ x ∈ l, x ≤ d) {r1 r2 : α} (h : r1 ≤ r2) :
    (l.find? (fun s => s ≥ r1)).getD d ≤ (l.find? (fun s => s ≥ r2)).getD d := by
  induction l with
  | nil => exact le_refl d
  | cons a tl ih =>
    rcases List.pairwise_cons.mp hl with ⟨ha, htl⟩
    by_cases h1 : r1 ≤ a
    · rw [List.find?_cons_of_pos _ (by simpa [ge_iff_le] using h1)]
      by_cases h2 : r2 ≤ a
      · rw [List.find?_cons_of_pos _ (by simpa [ge_iff_le] using h2)]
      · rw [List.find?_cons_of_neg _ (by simpa [ge_iff_le] using h2)]
        rcases hfind : tl.find? (fun s => s ≥ r2) with _ | b
        · simpa using hd a (List.mem_cons_self a tl)
        · simpa using ha b (List.mem_of_find?_eq_some hfind)
    · have h2 : ¬ r2 ≤ a := fun hc => h1 (le_trans h hc)
      rw [List.find?_cons_of_neg _ (by simpa [ge_iff_le] using h1),
        List.find?_cons_of_neg _ (by simpa [ge_iff_le] using h2)]
      exact ih htl fun x hx => hd x (List.mem_cons_of_mem a hx)

/-! ## Electrical engine (`src/react-app/src/lib/calculations/electrical.ts`) -/

/-- Standard breaker sizes per NEC (the `standardSizes` ladder of
`calculateBreakerSize`). -/
def standardBreakerSizes : List ℚ :=
  [15, 20, 25, 30, 35, 40, 45, 50, 60, 70, 80, 90, 100,
   110, 125, 150, 175, 200, 225, 250, 300, 350, 400,
   450, 500, 600, 700, 800, 1000, 1200]

/-- The `requiredRating` local of `calculateBreakerSize`: continuous loads
must not exceed 80% of the breaker rating. -/
def breakerRequiredRating (current : ℚ) (isContinuous : Bool) : ℚ :=
  if isContinuous then current / 0.8 else current

/-- `calculateBreakerSize` (electrical.ts, lines 46-59): select the first
standard size `≥ requiredRating`; the `|| standardSizes[standardSizes.length - 1]`
fallback yields the last ladder entry. -/
def calculateBreakerSize (current : ℚ) (isContinuous : Bool) : ℚ :=
  (standardBreakerSizes.find? (fun s => s ≥ breakerRequiredRating current isContinuous)).getD
    (standardBreakerSizes.getD (standardBreakerSizes.length - 1) 0)

/-- NEC Table 310.16 ampacity values for 75°C copper (the
`copperAmpacity75C` record of `calculateWireSize`), written in the order
the source literal declares the keys. -/
def copperAmpacity75C : List (String × ℚ) :=
  [("14", 20), ("12", 25), ("10", 35), ("8", 50), ("6", 65), ("4", 85),
   ("3", 100), ("2", 115), ("1", 130), ("1/0", 150), ("2/0", 175),
   ("3/0", 200), ("4/0", 230), ("250", 255), ("300", 285), ("350", 310),
   ("400", 335), ("500", 380), ("600", 420), ("750", 475), ("1000", 545)]

/-- The `copperAmpacity75C` record in the order `Object.entries` actually
enumerates it.  Per ECMAScript `[[OwnPropertyKeys]]`, the integer-like
keys `'1'`, `'2'`, `'3'`, `'4'`, `'6'`, `'8'`, `'10'`, `'12'`, `'14'`,
`'250'`, ..., `'1000'` come first in ascending numeric order, followed by
the non-index keys `'1/0'`–`'4/0'` in insertion order. -/
def copperAmpacity75CEntries : List (String × ℚ) :=
  [("1", 130), ("2", 115), ("3", 100), ("4", 85), ("6", 65), ("8", 50),
   ("10", 35), ("12", 25), ("14", 20), ("250", 255), ("300", 285),
   ("350", 310), ("400", 335), ("500", 380), ("600", 420), ("750", 475),
   ("1000", 545), ("1/0", 150), ("2/0", 175), ("3/0", 200), ("4/0", 230)]

/-- The enumeration order is a permutation of the declared record. -/
theorem copperAmpacity75CEntries_perm :
    copperAmpacity75CEntries.Perm copperAmpacity75C := by decide

/-- The `ampacityTable` local of `calculateWireSize` in the order the
`for ... of Object.entries(ampacityTable)` loop scans it: copper uses the
record's enumeration order as-is; anything else (aluminum) maps
`Math.round(amp * 0.62)` over `Object.entries(copperAmpacity75C)` and
rebuilds an object with the same keys, whose own enumeration order is
again the same. -/
def ampacityTable (material : String) : List (String × ℚ) :=
  if material = "copper" then copperAmpacity75CEntries
  else copperAmpacity75CEntries.map (fun p => (p.1, ((round (p.2 * 0.62) : ℤ) : ℚ)))

/-- The `tempFactor` local of `calculateWireSize`:
`tempFactors[tempRating] || 1.0` over the table {60 ↦ 0.88, 75 ↦ 1.0, 90 ↦ 1.04}. -/
def wireTempFactor (tempRating : ℚ) : ℚ :=
  if tempRating = 60 then 0.88
  else if tempRating = 75 then 1
  else if tempRating = 90 then 1.04
  else 1

/-- `calculateWireSize` (electrical.ts, lines 68-120): scan the ampacity
table in order and return the first gauge whose corrected ampacity covers
`current / 0.8`; fall through to `'1000 kcmil'`. -/
def calculateWireSize (current : ℚ) (material : String) (tempRating : ℚ) : String :=
  match (ampacityTable material).find?
      (fun p => p.2 * wireTempFactor tempRating ≥ current / 0.8) with
  | some p => p.1 ++ " AWG"
  | none => "1000 kcmil"

/-! ## Plumbing engine (part_009, lines 1-191) -/

/-- Water Supply Fixture Units per UPC Table 6-3 (the `fixtureUnits`
record), in source order. -/
def fixtureUnits : List (String × ℚ) :=
  [("Water Closet (Tank)", 3), ("Water Closet (Flush Valve)", 5),
   ("Urinal (Flush Valve)", 5), ("Urinal (Tank)", 3), ("Lavatory", 1),
   ("Sink (Kitchen)", 2), ("Sink (Service)", 3), ("Bathtub", 3),
   ("Shower", 2), ("Dishwasher (Domestic)", 2), ("Washing Machine", 3),
   ("Drinking Fountain", 0.5), ("Hose Bibb", 3)]

/-- The `fixtureUnits[fixtureName] || 1` lookup of
`calculateTotalFixtureUnits` (`||` also fires on a zero value). -/
def fixtureUnitLookup (fixtureName : String) : ℚ :=
  match fixtureUnits.find? (fun p => p.1 == fixtureName) with
  | some p => if p.2 = 0 then 1 else p.2
  | none => 1

/-- `calculateTotalFixtureUnits` (part_009, lines 25-32): fold
`total += units * count` over the entries of the fixture-count map. -/
def calculateTotalFixtureUnits (fixtures : List (String × ℚ)) : ℚ :=
  fixtures.foldl (fun total p => total + fixtureUnitLookup p.1 * p.2) 0

/-- `fixtureUnitsToGPM` (part_009, lines 39-51): piecewise Hunter's-curve
approximation. -/
noncomputable def fixtureUnitsToGPM (wsfu : ℝ) : ℝ :=
  if wsfu ≤ 0 then 0
  else if wsfu ≤ 10 then Real.sqrt wsfu * 3.5
  else if wsfu ≤ 50 then wsfu ^ (0.45 : ℝ) * 8
  else if wsfu ≤ 200 then wsfu ^ (0.38 : ℝ) * 15
  else wsfu ^ (0.35 : ℝ) * 20

/-- Standard copper pipe sizes (Type L), the `standardSizes` ladder of
`calculatePipeSize`. -/
def standardPipeSizes : List ℚ :=
  [0.5, 0.75, 1, 1.25, 1.5, 2, 2.5, 3, 4, 5, 6, 8, 10, 12]

/-- The `flowCFS` local of `calculatePipeSize`:
`flowRate / (7.48 * 60)` (7.48 gal/cu ft, 60 sec/min). -/
noncomputable def pipeFlowCFS (fixtureUnitCount : ℝ) : ℝ :=
  fixtureUnitsToGPM fixtureUnitCount / (7.48 * 60)

/-- The `requiredArea` local of `calculatePipeSize`: flow at a target
velocity of 5 fps. -/
noncomputable def pipeRequiredArea (fixtureUnitCount : ℝ) : ℝ :=
  pipeFlowCFS fixtureUnitCount / 5

/-- The `diameter` local of `calculatePipeSize`:
`Math.sqrt((4 * requiredArea) / Math.PI) * 12`. -/
noncomputable def pipeDiameter (fixtureUnitCount : ℝ) : ℝ :=
  Real.sqrt (4 * pipeRequiredArea fixtureUnitCount / Real.pi) * 12

/-- `calculateFrictionLoss` (part_009, lines 109-127): Hazen-Williams with
C = 140, head converted to PSI and rounded to 2 decimals.  The `length`
argument is accepted but unused, as in the source. -/
noncomputable def calculateFrictionLoss (flowRate diameter length : ℝ) : ℝ :=
  let headLoss := (4.52 * flowRate ^ (1.85 : ℝ)) /
    ((140 : ℝ) ^ (1.85 : ℝ) * diameter ^ (4.87 : ℝ))
  ((round (headLoss * 0.433 * 100) : ℤ) : ℝ) / 100

/-- The `selectedSize` local of `calculatePipeSize`:
`standardSizes.find(size => size >= diameter) || standardSizes[0]`.  Note
the exhaustion fallback selects the FIRST (smallest) ladder entry. -/
noncomputable def pipeSelectedSize (fixtureUnitCount : ℝ) : ℚ :=
  (standardPipeSizes.find?
      (fun (s : ℚ) => decide ((s : ℝ) ≥ pipeDiameter fixtureUnitCount))).getD
    (standardPipeSizes.getD 0 0)

/-- `calculatePipeSize` (part_009, lines 60-99): select the pipe size for
the computed diameter, then bump the selection one slot when the pressure
loss over the run exceeds half the available pressure.  The source appends
an inch mark to the returned number. -/
noncomputable def calculatePipeSize (fixtureUnitCount length pressureAvailable : ℝ) : ℚ :=
  let frictionLoss := calculateFrictionLoss (fixtureUnitsToGPM fixtureUnitCount)
    (pipeDiameter fixtureUnitCount) length
  let pressureLoss := frictionLoss * length / 100
  let selectedSize := pipeSelectedSize fixtureUnitCount
  if pressureLoss > pressureAvailable * 0.5 then
    let index := standardPipeSizes.indexOf selectedSize
    if index < standardPipeSizes.length - 1 then
      standardPipeSizes.getD (index + 1) 0
    else selectedSize
  else selectedSize

/-- UPC Table 7-6 maximum DFU capacities (the `drainCapacities` table of
`calculateDrainPipeSize`), as (size, dfu) pairs. -/
def drainCapacities : List (ℚ × ℚ) :=
  [(1.5, 3), (2, 6), (2.5, 12), (3, 20), (4, 160),
   (5, 360), (6, 620), (8, 1400), (10, 2500), (12, 3900)]

/-- The `adjustedDFU` local of `calculateDrainPipeSize`:
`drainageFixtureUnits / Math.sqrt(slope / 0.25)`. -/
noncomputable def adjustedDFU (drainageFixtureUnits slope : ℝ) : ℝ :=
  drainageFixtureUnits / Real.sqrt (slope / 0.25)

/-- `calculateDrainPipeSize` (part_009, lines 135-166): first capacity
entry with `dfu ≥ adjustedDFU`, defaulting to 12 (the source appends an
inch mark). -/
noncomputable def calculateDrainPipeSize (drainageFixtureUnits slope : ℝ) : ℚ :=
  ((drainCapacities.find?
      (fun (cap : ℚ × ℚ) =>
        decide ((cap.2 : ℝ) ≥ adjustedDFU drainageFixtureUnits slope))).map
    Prod.fst).getD 12

/-! ## HVAC engine (`Calculations.tsx`, lines 583-605) -/

/-- `calculateHeatingLoad`: envelope loss scaled by the temperature factor,
plus infiltration, minus occupant heat, floored at 0 and rounded. -/
def calculateHeatingLoad (area occupancy outdoorTemp indoorTemp : ℚ) : ℤ :=
  let envelopeLoss := area * 30
  let tempDiff := indoorTemp - outdoorTemp
  let tempFactor := tempDiff / 70
  let infiltrationLoss := area * 0.018 * tempDiff
  let occupancyLoad := occupancy * (-250)
  let totalLoad := envelopeLoss * tempFactor + infiltrationLoss + occupancyLoad
  max 0 (round totalLoad)

/-! ## Fire protection engine (part_009, lines 192-427) -/

/-- The hazard classification union type of `calculateSprinklerSystem`. -/
inductive HazardClass
  | light
  | ordinaryI
  | ordinaryII
  | extra

/-- NFPA 13 design density (GPM per sq ft), the `densities` table. -/
def sprinklerDensity : HazardClass → ℚ
  | .light => 0.10
  | .ordinaryI => 0.15
  | .ordinaryII => 0.20
  | .extra => 0.30

/-- Coverage area per sprinkler head (sq ft), the `coverages` table. -/
def sprinklerCoverage : HazardClass → ℚ
  | .light => 225
  | .ordinaryI => 130
  | .ordinaryII => 130
  | .extra => 100

/-- Pressure requirement at the most remote head (PSI), the `basePressure`
table. -/
def sprinklerBasePressure : HazardClass → ℚ
  | .light => 7
  | .ordinaryI => 10
  | .ordinaryII => 15
  | .extra => 20

/-- Result record of `calculateSprinklerSystem`. -/
structure SprinklerResult where
  coverage : ℚ
  density : ℚ
  headCount : ℤ
  flowRate : ℤ
  pressure : ℤ
  pipeSize : String

/-- `calculateSprinklerSystem` (part_009, lines 201-273). -/
def calculateSprinklerSystem (area : ℚ) (hazardClass : HazardClass)
    (ceilingHeight : ℚ) : SprinklerResult :=
  let density := sprinklerDensity hazardClass
  let coverage := sprinklerCoverage hazardClass
  let headCount := ⌈area / coverage⌉
  let designArea := max 1500 (coverage * 5)
  let flowRate := round (designArea * density)
  let elevationPressure := ceilingHeight * 0.433
  let totalPressure :=
    round (sprinklerBasePressure hazardClass + elevationPressure +
      sprinklerBasePressure hazardClass * 0.3)
  let pipeSize :=
    if flowRate < 100 then "2\""
    else if flowRate < 200 then "2.5\""
    else if flowRate < 400 then "3\""
    else if flowRate < 750 then "4\""
    else if flowRate < 1200 then "5\""
    else if flowRate < 2000 then "6\""
    else "8\""
  ⟨coverage, density, headCount, flowRate, totalPressure, pipeSize⟩

/-- ISO construction factors (the `constructionFactors` table of
`calculateFireHydrantFlow`). -/
def constructionFactors : List (String × ℚ) :=
  [("Type I", 0.6), ("Type II", 0.8), ("Type III", 1.0),
   ("Type IV", 0.8), ("Type V", 1.2)]

/-- The `C = constructionFactors[constructionType] || 1.0` lookup. -/
def constructionFactor (constructionType : String) : ℚ :=
  match constructionFactors.find? (fun p => p.1 == constructionType) with
  | some p => if p.2 = 0 then 1 else p.2
  | none => 1

/-- `calculateFireHydrantFlow` (part_009, lines 383-408): `C·√area·18`,
clamped to [500, 12000], rounded to the nearest 250 GPM. -/
noncomputable def calculateFireHydrantFlow (buildingArea : ℝ)
    (constructionType : String) : ℝ :=
  let C := ((constructionFactor constructionType : ℚ) : ℝ)
  let fireFlow := C * Real.sqrt buildingArea * 18
  let clamped := max 500 (min 12000 fireFlow)
  ((round (clamped / 250) : ℤ) : ℝ) * 250

/-! ## Further generic helpers -/

/-- An in-bounds `getD` access returns an element of the list. -/
theorem getD_mem_of_lt {α : Type} (l : List α) (n : ℕ) (d : α)
    (h : n < l.length) : l.getD n d ∈ l := by
  induction l generalizing n with
  | nil => simp at h
  | cons a tl ih =>
    cases n with
    | zero => simp
    | succ n =>
      simp only [List.getD_cons_succ]
      exact List.mem_cons_of_mem a (ih n (by simpa using h))

/-- Bounding the "first component of a found pair, else default" value from
below. -/
theorem le_getD_map_fst {v : ℚ} {o : Option (ℚ × ℚ)} {dflt : ℚ}
    (hsome : ∀ b, o = some b → v ≤ b.1) (hdflt : v ≤ dflt) :
    v ≤ (o.map Prod.fst).getD dflt := by
  cases o with
  | none => simpa using hdflt
  | some b => simpa using hsome b rfl

/-- Monotonicity of "first pair whose threshold is `≥` the requirement,
else default" selection, for a pair list whose first components are sorted
and bounded by the default. -/
theorem find_pair_getD_mono (l : List (ℚ × ℚ)) (dflt : ℚ)
    (hfst : l.Pairwise (fun a b => a.1 ≤ b.1)) (hd : ∀ x ∈ l, x.1 ≤ dflt)
    {r1 r2 : ℝ} (h : r1 ≤ r2) :
    ((l.find? (fun c => decide ((c.2 : ℝ) ≥ r1))).map Prod.fst).getD dflt ≤
      ((l.find? (fun c => decide ((c.2 : ℝ) ≥ r2))).map Prod.fst).getD dflt := by
  induction l with
  | nil => exact le_refl dflt
  | cons a tl ih =>
    rcases List.pairwise_cons.mp hfst with ⟨ha, htl⟩
    by_cases h1 : r1 ≤ (a.2 : ℝ)
    · rw [List.find?_cons_of_pos _ (by simpa [ge_iff_le] using h1)]
      by_cases h2 : r2 ≤ (a.2 : ℝ)
      · rw [List.find?_cons_of_pos _ (by simpa [ge_iff_le] using h2)]
      · rw [List.find?_cons_of_neg _ (by simpa [ge_iff_le] using h2)]
        have hred : (((some a).map Prod.fst).getD dflt : ℚ) = a.1 := rfl
        rw [hred]
        exact le_getD_map_fst
          (fun b hb => ha b (List.mem_of_find?_eq_some hb))
          (hd a (List.mem_cons_self a tl))
    · have h2 : ¬ r2 ≤ (a.2 : ℝ) := fun hc => h1 (le_trans h hc)
      rw [List.find?_cons_of_neg _ (by simpa [ge_iff_le] using h1),
        List.find?_cons_of_neg _ (by simpa [ge_iff_le] using h2)]
      exact ih htl fun x hx => hd x (List.mem_cons_of_mem a hx)

/-! ## Claim C10 -/

/-- Claim C10: for every current (including zero and negative) and either
value of the continuous-load flag, `calculateBreakerSize` returns at least
15 A, the smallest ladder entry. -/
theorem breakerSize_ge_fifteen (current : ℚ) (isContinuous : Bool) :
    15 ≤ calculateBreakerSize current isContinuous := by
  unfold calculateBreakerSize
  rcases hf : standardBreakerSizes.find?
      (fun s => s ≥ breakerRequiredRating current isContinuous) with _ | s
  · simp only [Option.getD_none]
    decide
  · simp only [Option.getD_some]
    have hall : ∀ x ∈ standardBreakerSizes, (15 : ℚ) ≤ x := by decide
    exact hall s (List.mem_of_find?_eq_some hf)

/-! ## Claim C4 -/

/-- The formula of `calculateHeatingLoad`, written as in the specification. -/
theorem heatingLoad_formula (area occupancy outdoorTemp indoorTemp : ℚ) :
    calculateHeatingLoad area occupancy outdoorTemp indoorTemp =
      max 0 (round (area * 30 * (indoorTemp - outdoorTemp) / 70 +
        0.018 * area * (indoorTemp - outdoorTemp) - 250 * occupancy)) := by
  show max 0 (round (area * 30 * ((indoorTemp - outdoorTemp) / 70) +
      area * 0.018 * (indoorTemp - outdoorTemp) + occupancy * (-250))) = _
  have h : area * 30 * ((indoorTemp - outdoorTemp) / 70) +
      area * 0.018 * (indoorTemp - outdoorTemp) + occupancy * (-250) =
      area * 30 * (indoorTemp - outdoorTemp) / 70 +
        0.018 * area * (indoorTemp - outdoorTemp) - 250 * occupancy := by
    ring
  rw [h]

/-- Claim C4: `calculateHeatingLoad` equals
`max(0, round(area·30·ΔT/70 + 0.018·area·ΔT − 250·occupancy))`, is never
negative, and evaluates to 28760 on (1000, 10, 0, 70). -/
theorem heatingLoad_spec (area occupancy outdoorTemp indoorTemp : ℚ) :
    calculateHeatingLoad area occupancy outdoorTemp indoorTemp =
      max 0 (round (area * 30 * (indoorTemp - outdoorTemp) / 70 +
        0.018 * area * (indoorTemp - outdoorTemp) - 250 * occupancy)) ∧
    0 ≤ calculateHeatingLoad area occupancy outdoorTemp indoorTemp ∧
    calculateHeatingLoad 1000 10 0 70 = 28760 := by
  refine ⟨heatingLoad_formula area occupancy outdoorTemp indoorTemp,
    le_max_left 0 _, ?_⟩
  rw [heatingLoad_formula]
  have h1 : (1000 : ℚ) * 30 * (70 - 0) / 70 + 0.018 * 1000 * (70 - 0) -
      250 * 10 = ((28760 : ℤ) : ℚ) := by norm_num
  rw [h1, round_intCast]
  norm_num

/-! ## Claim C8 -/

/-- Claim C8: for a fixed hazard class and ceiling height, every output of
`calculateSprinklerSystem` except `headCount` is independent of the
protected area, and `headCount = ⌈area / coverage⌉`. -/
theorem sprinkler_area_independent (a1 a2 : ℚ) (hz : HazardClass) (ch : ℚ) :
    (calculateSprinklerSystem a1 hz ch).density =
      (calculateSprinklerSystem a2 hz ch).density ∧
    (calculateSprinklerSystem a1 hz ch).coverage =
      (calculateSprinklerSystem a2 hz ch).coverage ∧
    (calculateSprinklerSystem a1 hz ch).flowRate =
      (calculateSprinklerSystem a2 hz ch).flowRate ∧
    (calculateSprinklerSystem a1 hz ch).pressure =
      (calculateSprinklerSystem a2 hz ch).pressure ∧
    (calculateSprinklerSystem a1 hz ch).pipeSize =
      (calculateSprinklerSystem a2 hz ch).pipeSize ∧
    (calculateSprinklerSystem a1 hz ch).headCount =
      ⌈a1 / sprinklerCoverage hz⌉ :=
  ⟨rfl, rfl, rfl, rfl, rfl, rfl⟩

/-! ## Claim C9 -/

/-- The running total of `calculateTotalFixtureUnits` is a map-sum. -/
theorem totalFixtureUnits_eq_sum (l : List (String × ℚ)) :
    calculateTotalFixtureUnits l =
      (l.map (fun p => fixtureUnitLookup p.1 * p.2)).sum := by
  have h : ∀ (init : ℚ) (m : List (String × ℚ)),
      m.foldl (fun total p => total + fixtureUnitLookup p.1 * p.2) init =
        init + (m.map (fun p => fixtureUnitLookup p.1 * p.2)).sum := by
    intro init m
    induction m generalizing init with
    | nil => simp
    | cons a tl ih => simp [List.foldl_cons, ih, add_assoc]
  simpa [calculateTotalFixtureUnits] using h 0 l

/-- Claim C9: `calculateTotalFixtureUnits` is additive on maps with
disjoint fixture names and homogeneous under scaling all counts. -/
theorem totalFixtureUnits_additive_homogeneous
    (l1 l2 : List (String × ℚ)) (k : ℚ)
    (hdisj : ∀ n ∈ l1.map Prod.fst, n ∉ l2.map Prod.fst) :
    calculateTotalFixtureUnits (l1 ++ l2) =
      calculateTotalFixtureUnits l1 + calculateTotalFixtureUnits l2 ∧
    calculateTotalFixtureUnits (l1.map (fun p => (p.1, k * p.2))) =
      k * calculateTotalFixtureUnits l1 := by
  constructor
  · simp [totalFixtureUnits_eq_sum]
  · clear hdisj
    rw [totalFixtureUnits_eq_sum, totalFixtureUnits_eq_sum]
    induction l1 with
    | nil => simp
    | cons a tl ih =>
      simp only [List.map_cons, List.sum_cons, ih, mul_add]
      ring_nf

/-- Witness for claim C9 at a concrete pair of disjoint fixture maps. -/
theorem totalFixtureUnits_witness :
    (∀ n ∈ ([("Lavatory", (2 : ℚ))] : List (String × ℚ)).map Prod.fst,
      n ∉ ([("Shower", (3 : ℚ))] : List (String × ℚ)).map Prod.fst) ∧
    calculateTotalFixtureUnits
        (([("Lavatory", (2 : ℚ))] : List (String × ℚ)) ++ [("Shower", 3)]) =
      calculateTotalFixtureUnits [("Lavatory", (2 : ℚ))] +
        calculateTotalFixtureUnits [("Shower", (3 : ℚ))] :=
  ⟨by decide,
    (totalFixtureUnits_additive_homogeneous [("Lavatory", 2)] [("Shower", 3)] 1
      (by decide)).1⟩

/-! ## Claim C2 -/

/-- Exhaustion branch of `calculateWireSize`: when no corrected ampacity
reaches the requirement, the scan falls through to the largest size. -/
theorem wireSize_exhaust {current : ℚ} {material : String} {tempRating : ℚ}
    (h : ∀ p ∈ ampacityTable material,
      p.2 * wireTempFactor tempRating < current / 0.8) :
    calculateWireSize current material tempRating = "1000 kcmil" := by
  have hnone : (ampacityTable material).find?
      (fun p => p.2 * wireTempFactor tempRating ≥ current / 0.8) = none := by
    rw [List.find?_eq_none]
    intro p hp
    simp only [ge_iff_le, decide_eq_true_eq, not_le]
    exact h p hp
  simp [calculateWireSize, hnone]


/-- Evaluation rule for `round` on rationals, by bracketing. -/
theorem round_eval {q : ℚ} {n : ℤ} (h1 : (n : ℚ) ≤ q + 1 / 2)
    (h2 : q + 1 / 2 < n + 1) : round q = n := by
  rw [round_eq]
  exact Int.floor_eq_iff.mpr ⟨h1, h2⟩

/-- The aluminum ampacity table, evaluated, in enumeration order. -/
theorem ampacityTable_ne_copper {m : String} (hm : m ≠ "copper") :
    ampacityTable m =
      [("1", 81), ("2", 71), ("3", 62), ("4", 53), ("6", 40), ("8", 31),
       ("10", 22), ("12", 16), ("14", 12), ("250", 158), ("300", 177),
       ("350", 192), ("400", 208), ("500", 236), ("600", 260), ("750", 295),
       ("1000", 338), ("1/0", 93), ("2/0", 109), ("3/0", 124), ("4/0", 143)] := by
  have e01 : round ((20 : ℚ) * 0.62) = 12 := round_eval (by norm_num) (by norm_num)
  have e02 : round ((25 : ℚ) * 0.62) = 16 := round_eval (by norm_num) (by norm_num)
  have e03 : round ((35 : ℚ) * 0.62) = 22 := round_eval (by norm_num) (by norm_num)
  have e04 : round ((50 : ℚ) * 0.62) = 31 := round_eval (by norm_num) (by norm_num)
  have e05 : round ((65 : ℚ) * 0.62) = 40 := round_eval (by norm_num) (by norm_num)
  have e06 : round ((85 : ℚ) * 0.62) = 53 := round_eval (by norm_num) (by norm_num)
  have e07 : round ((100 : ℚ) * 0.62) = 62 := round_eval (by norm_num) (by norm_num)
  have e08 : round ((115 : ℚ) * 0.62) = 71 := round_eval (by norm_num) (by norm_num)
  have e09 : round ((130 : ℚ) * 0.62) = 81 := round_eval (by norm_num) (by norm_num)
  have e10 : round ((150 : ℚ) * 0.62) = 93 := round_eval (by norm_num) (by norm_num)
  have e11 : round ((175 : ℚ) * 0.62) = 109 := round_eval (by norm_num) (by norm_num)
  have e12 : round ((200 : ℚ) * 0.62) = 124 := round_eval (by norm_num) (by norm_num)
  have e13 : round ((230 : ℚ) * 0.62) = 143 := round_eval (by norm_num) (by norm_num)
  have e14 : round ((255 : ℚ) * 0.62) = 158 := round_eval (by norm_num) (by norm_num)
  have e15 : round ((285 : ℚ) * 0.62) = 177 := round_eval (by norm_num) (by norm_num)
  have e16 : round ((310 : ℚ) * 0.62) = 192 := round_eval (by norm_num) (by norm_num)
  have e17 : round ((335 : ℚ) * 0.62) = 208 := round_eval (by norm_num) (by norm_num)
  have e18 : round ((380 : ℚ) * 0.62) = 236 := round_eval (by norm_num) (by norm_num)
  have e19 : round ((420 : ℚ) * 0.62) = 260 := round_eval (by norm_num) (by norm_num)
  have e20 : round ((475 : ℚ) * 0.62) = 295 := round_eval (by norm_num) (by norm_num)
  have e21 : round ((545 : ℚ) * 0.62) = 338 := round_eval (by norm_num) (by norm_num)
  rw [show ampacityTable m =
    copperAmpacity75CEntries.map (fun p => (p.1, ((round (p.2 * 0.62) : ℤ) : ℚ)))
    from by unfold ampacityTable; rw [if_neg hm]]
  simp [copperAmpacity75CEntries, e01, e02, e03, e04, e05, e06, e07,
    e08, e09, e10, e11, e12, e13, e14, e15, e16, e17, e18, e19, e20, e21]

/-- First-qualifying branch of `calculateWireSize`: the entry at the first
scan position whose corrected ampacity reaches the requirement is
returned. -/
theorem wireSize_first {current : ℚ} {material : String} {tempRating : ℚ}
    (n : ℕ) (x : String × ℚ) (hx : (ampacityTable material).get? n = some x)
    (hqual : current / 0.8 ≤ x.2 * wireTempFactor tempRating)
    (hbefore : ∀ y ∈ (ampacityTable material).take n,
      y.2 * wireTempFactor tempRating < current / 0.8) :
    calculateWireSize current material tempRating = x.1 ++ " AWG" := by
  have hsome : (ampacityTable material).find?
      (fun p => p.2 * wireTempFactor tempRating ≥ current / 0.8) = some x := by
    apply find?_eq_of_first hx
    · simpa using hqual
    · intro m hm y hy
      have hymem : y ∈ (ampacityTable material).take n := by
        apply List.get?_mem (n := m)
        rw [List.get?_take hm]
        exact hy
      simp only [ge_iff_le, decide_eq_false_iff_not, not_le]
      exact hbefore y hymem
  simp [calculateWireSize, hsome]

/-- The ascending ladder of physical wire sizes, from 14 AWG up through
the kcmil sizes, in the label format `calculateWireSize` returns. -/
def wireGaugeLadder : List String :=
  ["14 AWG", "12 AWG", "10 AWG", "8 AWG", "6 AWG", "4 AWG", "3 AWG",
   "2 AWG", "1 AWG", "1/0 AWG", "2/0 AWG", "3/0 AWG", "4/0 AWG",
   "250 AWG", "300 AWG", "350 AWG", "400 AWG", "500 AWG", "600 AWG",
   "750 AWG", "1000 AWG", "1000 kcmil"]

/-- Physical size rank of a returned wire label: its position in the
ascending gauge ladder. -/
def wireGaugeRank (s : String) : ℕ := wireGaugeLadder.indexOf s

/-- Claim C2 (counterexample to the claim as stated): at 10 A on copper at
75°C the requirement is 12.5 A and the physically smallest sufficient
gauge is 14 AWG (20 A ≥ 12.5 A), yet the program scans the table in
`Object.entries` order — ampacity 130 first — and returns `'1 AWG'`. -/
theorem wireSize_smallest_counterexample :
    calculateWireSize 10 "copper" 75 = "1 AWG" ∧
    ("14", 20) ∈ ampacityTable "copper" ∧
    (10 : ℚ) / 0.8 ≤ 20 * wireTempFactor 75 ∧
    wireGaugeRank "14 AWG" < wireGaugeRank "1 AWG" := by
  refine ⟨?_, by decide, by norm_num [wireTempFactor], by decide⟩
  exact wireSize_first 0 ("1", 130) rfl (by norm_num [wireTempFactor])
    (by intro y hy; simp at hy)

/-- Claim C2 (amended): `calculateWireSize` computes the requirement
`current/0.8` and returns the first gauge in the table's `Object.entries`
enumeration order (integer-like keys ascending numerically, then
`'1/0'`–`'4/0'`) whose temperature-corrected ampacity covers it, falling
back to `'1000 kcmil'` when no gauge suffices; this is NOT the smallest
sufficient gauge — on copper, every requirement up to `130·tempFactor`
yields `'1 AWG'`. -/
theorem wireSize_selection_amended (current : ℚ) (material : String)
    (tempRating : ℚ) :
    (∀ n x, (ampacityTable material).get? n = some x →
      current / 0.8 ≤ x.2 * wireTempFactor tempRating →
      (∀ y ∈ (ampacityTable material).take n,
        y.2 * wireTempFactor tempRating < current / 0.8) →
      calculateWireSize current material tempRating = x.1 ++ " AWG") ∧
    ((∀ p ∈ ampacityTable material,
        p.2 * wireTempFactor tempRating < current / 0.8) →
      calculateWireSize current material tempRating = "1000 kcmil") ∧
    (ampacityTable "copper").map Prod.fst =
      ["1", "2", "3", "4", "6", "8", "10", "12", "14", "250", "300", "350",
       "400", "500", "600", "750", "1000", "1/0", "2/0", "3/0", "4/0"] ∧
    (current / 0.8 ≤ 130 * wireTempFactor tempRating →
      calculateWireSize current "copper" tempRating = "1 AWG") :=
  ⟨fun n x hx h1 h2 => wireSize_first n x hx h1 h2, wireSize_exhaust,
    by decide,
    fun hreq => wireSize_first 0 ("1", 130) rfl hreq
      (by intro y hy; simp at hy)⟩

/-- Witness for claim C2: at 300 A on copper at 75°C the requirement is
375 A; in enumeration order `'400'` (335 A) still fails and `'500'`
(380 A) is the first sufficient entry, reached before `'1/0'`–`'4/0'`;
and at 25 A the very first entry `'1'` (130 A) already suffices. -/
theorem wireSize_selection_witness :
    (300 / (0.8 : ℚ) ≤ 380 * wireTempFactor 75) ∧
    calculateWireSize 300 "copper" 75 = "500 AWG" ∧
    calculateWireSize 25 "copper" 75 = "1 AWG" := by
  refine ⟨by norm_num [wireTempFactor], ?_, ?_⟩
  · refine (wireSize_selection_amended 300 "copper" 75).1 13 ("500", 380) rfl
      (by norm_num [wireTempFactor]) ?_
    have htake : (ampacityTable "copper").take 13 =
        [("1", 130), ("2", 115), ("3", 100), ("4", 85), ("6", 65), ("8", 50),
         ("10", 35), ("12", 25), ("14", 20), ("250", 255), ("300", 285),
         ("350", 310), ("400", 335)] := rfl
    rw [htake]
    intro y hy
    fin_cases hy <;> norm_num [wireTempFactor]
  · exact (wireSize_selection_amended 25 "copper" 75).2.2.2
      (by norm_num [wireTempFactor])

/-! ## Breaker, wire and drain ladder facts -/

/-- The breaker requirement is monotone in the current. -/
theorem breakerRequiredRating_mono (isContinuous : Bool) {c1 c2 : ℚ}
    (h : c1 ≤ c2) :
    breakerRequiredRating c1 isContinuous ≤ breakerRequiredRating c2 isContinuous := by
  unfold breakerRequiredRating
  cases isContinuous
  · simpa using h
  · simpa using (div_le_div_right (by norm_num : (0 : ℚ) < 0.8)).mpr h

/-- `calculateBreakerSize` is monotone non-decreasing in the current. -/
theorem breakerSize_mono (isContinuous : Bool) {c1 c2 : ℚ} (h : c1 ≤ c2) :
    calculateBreakerSize c1 isContinuous ≤ calculateBreakerSize c2 isContinuous := by
  unfold calculateBreakerSize
  exact find_ge_getD_mono standardBreakerSizes _ (by decide) (by decide)
    (breakerRequiredRating_mono isContinuous h)

/-- `calculateBreakerSize` always returns a ladder entry. -/
theorem breakerSize_mem (current : ℚ) (isContinuous : Bool) :
    calculateBreakerSize current isContinuous ∈ standardBreakerSizes := by
  unfold calculateBreakerSize
  rcases hf : standardBreakerSizes.find?
      (fun s => s ≥ breakerRequiredRating current isContinuous) with _ | s
  · simp only [Option.getD_none]
    decide
  · simp only [Option.getD_some]
    exact List.mem_of_find?_eq_some hf

/-- Ladder exhaustion of `calculateBreakerSize`: a requirement above 1200 A
returns the largest entry, 1200 A. -/
theorem breakerSize_exhaust {current : ℚ} {isContinuous : Bool}
    (h : 1200 < breakerRequiredRating current isContinuous) :
    calculateBreakerSize current isContinuous = 1200 := by
  unfold calculateBreakerSize
  have hnone : standardBreakerSizes.find?
      (fun s => s ≥ breakerRequiredRating current isContinuous) = none := by
    rw [List.find?_eq_none]
    intro s hs
    have hall : ∀ x ∈ standardBreakerSizes, x ≤ (1200 : ℚ) := by decide
    simp only [ge_iff_le, decide_eq_true_eq, not_le]
    exact lt_of_le_of_lt (hall s hs) h
  rw [hnone]
  rfl

/-- `calculateWireSize` always returns a tabulated gauge label (or the
largest size on fall-through). -/
theorem wireSize_mem (current : ℚ) (material : String) (tempRating : ℚ) :
    (∃ p ∈ ampacityTable material,
      calculateWireSize current material tempRating = p.1 ++ " AWG") ∨
    calculateWireSize current material tempRating = "1000 kcmil" := by
  unfold calculateWireSize
  rcases hf : (ampacityTable material).find?
      (fun p => p.2 * wireTempFactor tempRating ≥ current / 0.8) with _ | p
  · rw [hf]
    exact Or.inr rfl
  · rw [hf]
    exact Or.inl ⟨p, List.mem_of_find?_eq_some hf, rfl⟩

/-- Decomposition of a successful `find?`: the witness sits at a first
position before which every entry fails. -/
theorem find?_some_get {α : Type} {l : List α} {p : α → Bool} {x : α}
    (h : l.find? p = some x) :
    ∃ i, l.get? i = some x ∧ p x = true ∧
      ∀ m y, m < i → l.get? m = some y → p y = false := by
  induction l with
  | nil => simp at h
  | cons a tl ih =>
    by_cases hp : p a = true
    · rw [List.find?_cons_of_pos _ hp] at h
      cases h
      exact ⟨0, rfl, hp, fun m y hm => absurd hm (Nat.not_lt_zero m)⟩
    · have hp2 : p a = false := by simpa using hp
      rw [List.find?_cons_of_neg _ (by simp [hp2])] at h
      rcases ih h with ⟨i, hgi, hpx, hbef⟩
      refine ⟨i + 1, hgi, hpx, ?_⟩
      intro m y hm hy
      cases m with
      | zero =>
        cases hy
        exact hp2
      | succ m => exact hbef m y (Nat.lt_of_succ_lt_succ hm) hy

/-- When a stronger predicate also finds a witness, the weaker predicate's
witness is the same entry or an earlier one that fails the stronger
predicate. -/
theorem find?_imp_order {α : Type} {l : List α} {p q : α → Bool}
    (himp : ∀ z, q z = true → p z = true) {x y : α}
    (hx : l.find? p = some x) (hy : l.find? q = some y) :
    x = y ∨ (q x = false ∧ ∃ i j, i < j ∧ l.get? i = some x ∧ l.get? j = some y) := by
  rcases find?_some_get hx with ⟨i, hgi, _hpx, hbefi⟩
  rcases find?_some_get hy with ⟨j, hgj, hqy, hbefj⟩
  rcases Nat.lt_trichotomy i j with hij | hij | hij
  · exact Or.inr ⟨hbefj i x hij hgi, i, j, hij, hgi, hgj⟩
  · left
    rw [hij] at hgi
    exact Option.some_inj.mp (hgi.symm.trans hgj)
  · exact absurd (himp y hqy) (by simp [hbefi j y hij hgj])

/-- The temperature correction factor is always positive. -/
theorem wireTempFactor_pos (tempRating : ℚ) : 0 < wireTempFactor tempRating := by
  unfold wireTempFactor
  split_ifs <;> norm_num

/-- Claim C3 wire part: the physical size rank of the gauge returned by
`calculateWireSize` is monotone non-decreasing in the current.  The scan
order is not ascending, but any earlier-scanned entry with a strictly
smaller ampacity also has a smaller-or-equal physical gauge — checked by
`decide` for both tables — which suffices. -/
theorem wireSize_rank_mono (material : String) (tempRating : ℚ) {c1 c2 : ℚ}
    (h : c1 ≤ c2) :
    wireGaugeRank (calculateWireSize c1 material tempRating) ≤
      wireGaugeRank (calculateWireSize c2 material tempRating) := by
  have htf : 0 < wireTempFactor tempRating := wireTempFactor_pos tempRating
  have hR : (ampacityTable material).Pairwise
      (fun a b => a.2 < b.2 →
        wireGaugeRank (a.1 ++ " AWG") ≤ wireGaugeRank (b.1 ++ " AWG")) := by
    by_cases hm : material = "copper"
    · subst hm
      decide
    · rw [ampacityTable_ne_copper hm]
      decide
  have hmem : ∀ p ∈ ampacityTable material,
      wireGaugeRank (p.1 ++ " AWG") ≤ wireGaugeRank "1000 kcmil" := by
    by_cases hm : material = "copper"
    · subst hm
      decide
    · rw [ampacityTable_ne_copper hm]
      decide
  have himp : ∀ z : String × ℚ,
      decide (z.2 * wireTempFactor tempRating ≥ c2 / 0.8) = true →
      decide (z.2 * wireTempFactor tempRating ≥ c1 / 0.8) = true := by
    intro z hz
    simp only [ge_iff_le, decide_eq_true_eq] at hz ⊢
    calc c1 / 0.8 ≤ c2 / 0.8 := by
          exact (div_le_div_right (by norm_num : (0 : ℚ) < 0.8)).mpr h
      _ ≤ z.2 * wireTempFactor tempRating := hz
  unfold calculateWireSize
  rcases h2 : (ampacityTable material).find?
      (fun p => p.2 * wireTempFactor tempRating ≥ c2 / 0.8) with _ | y
  · rw [h2]
    rcases h1 : (ampacityTable material).find?
        (fun p => p.2 * wireTempFactor tempRating ≥ c1 / 0.8) with _ | x
    · rw [h1]
    · rw [h1]
      exact hmem x (List.mem_of_find?_eq_some h1)
  · rw [h2]
    rcases find?_some_get h2 with ⟨_, _, hqy, _⟩
    rcases h1 : (ampacityTable material).find?
        (fun p => p.2 * wireTempFactor tempRating ≥ c1 / 0.8) with _ | x
    · rw [List.find?_eq_none] at h1
      exact absurd (himp y hqy)
        (by simp [h1 y (List.mem_of_find?_eq_some h2)])
    · rw [h1]
      rcases find?_imp_order himp h1 h2 with heq | ⟨hqx, i, j, hij, hgi, hgj⟩
      · rw [heq]
      · have hampx : x.2 * wireTempFactor tempRating < c2 / 0.8 := by
          simpa [not_le] using hqx
        have hampy : c2 / 0.8 ≤ y.2 * wireTempFactor tempRating := by
          simpa using hqy
        have hamp : x.2 < y.2 :=
          (mul_lt_mul_right htf).mp (lt_of_lt_of_le hampx hampy)
        rcases List.get?_eq_some.mp hgi with ⟨hilen, hgetx⟩
        rcases List.get?_eq_some.mp hgj with ⟨hjlen, hgety⟩
        have hpair := List.pairwise_iff_get.mp hR ⟨i, hilen⟩ ⟨j, hjlen⟩ hij
        rw [hgetx, hgety] at hpair
        exact hpair hamp

/-- The adjusted DFU of `calculateDrainPipeSize` is monotone in the DFU
input for a fixed slope. -/
theorem adjustedDFU_mono (slope : ℝ) {d1 d2 : ℝ} (h : d1 ≤ d2) :
    adjustedDFU d1 slope ≤ adjustedDFU d2 slope := by
  unfold adjustedDFU
  rcases eq_or_lt_of_le (Real.sqrt_nonneg (slope / 0.25)) with hz | hpos
  · rw [← hz, div_zero, div_zero]
  · exact (div_le_div_right hpos).mpr h

/-- `calculateDrainPipeSize` is monotone non-decreasing in the DFU input. -/
theorem drainPipeSize_mono (slope : ℝ) {d1 d2 : ℝ} (h : d1 ≤ d2) :
    calculateDrainPipeSize d1 slope ≤ calculateDrainPipeSize d2 slope := by
  unfold calculateDrainPipeSize
  refine find_pair_getD_mono drainCapacities 12 ?_ ?_ (adjustedDFU_mono slope h)
  · norm_num [drainCapacities, List.pairwise_cons]
  · intro x hx
    fin_cases hx <;> norm_num

/-- `calculateDrainPipeSize` always returns a ladder size. -/
theorem drainPipeSize_mem (drainageFixtureUnits slope : ℝ) :
    calculateDrainPipeSize drainageFixtureUnits slope ∈
      drainCapacities.map Prod.fst := by
  unfold calculateDrainPipeSize
  rcases hf : drainCapacities.find?
      (fun cap => decide ((cap.2 : ℝ) ≥ adjustedDFU drainageFixtureUnits slope))
      with _ | c
  · rw [hf]
    norm_num [drainCapacities]
  · rw [hf]
    exact List.mem_map_of_mem Prod.fst (List.mem_of_find?_eq_some hf)

/-- Ladder exhaustion of `calculateDrainPipeSize`: an adjusted DFU above
3900 returns the largest size, 12 inches. -/
theorem drainPipeSize_exhaust {drainageFixtureUnits slope : ℝ}
    (h : 3900 < adjustedDFU drainageFixtureUnits slope) :
    calculateDrainPipeSize drainageFixtureUnits slope = 12 := by
  unfold calculateDrainPipeSize
  have hnone : drainCapacities.find?
      (fun cap => decide ((cap.2 : ℝ) ≥ adjustedDFU drainageFixtureUnits slope)) =
      none := by
    rw [List.find?_eq_none]
    intro c hc
    simp only [ge_iff_le, decide_eq_true_eq, not_le]
    have hle : (c.2 : ℝ) ≤ 3900 := by
      fin_cases hc <;> norm_num
    exact lt_of_le_of_lt hle h
  rw [hnone]
  rfl

/-! ## Claim C5: the Hunter-curve conversion -/

/-- Non-positive branch of `fixtureUnitsToGPM`. -/
theorem gpm_nonpos {w : ℝ} (h : w ≤ 0) : fixtureUnitsToGPM w = 0 := by
  unfold fixtureUnitsToGPM
  rw [if_pos h]

/-- First branch of `fixtureUnitsToGPM`. -/
theorem gpm_branch1 {w : ℝ} (h0 : 0 < w) (h10 : w ≤ 10) :
    fixtureUnitsToGPM w = Real.sqrt w * 3.5 := by
  unfold fixtureUnitsToGPM
  rw [if_neg (not_le.mpr h0), if_pos h10]

/-- Second branch of `fixtureUnitsToGPM`. -/
theorem gpm_branch2 {w : ℝ} (h10 : 10 < w) (h50 : w ≤ 50) :
    fixtureUnitsToGPM w = w ^ (0.45 : ℝ) * 8 := by
  unfold fixtureUnitsToGPM
  rw [if_neg (not_le.mpr (by linarith)), if_neg (not_le.mpr h10), if_pos h50]

/-- Third branch of `fixtureUnitsToGPM`. -/
theorem gpm_branch3 {w : ℝ} (h50 : 50 < w) (h200 : w ≤ 200) :
    fixtureUnitsToGPM w = w ^ (0.38 : ℝ) * 15 := by
  unfold fixtureUnitsToGPM
  rw [if_neg (not_le.mpr (by linarith)), if_neg (not_le.mpr (by linarith)),
    if_neg (not_le.mpr h50), if_pos h200]

/-- Fourth branch of `fixtureUnitsToGPM`. -/
theorem gpm_branch4 {w : ℝ} (h200 : 200 < w) :
    fixtureUnitsToGPM w = w ^ (0.35 : ℝ) * 20 := by
  unfold fixtureUnitsToGPM
  rw [if_neg (not_le.mpr (by linarith)), if_neg (not_le.mpr (by linarith)),
    if_neg (not_le.mpr (by linarith)), if_neg (not_le.mpr h200)]

/-- Rewriting an iterated real power of a real power as a power with a
natural exponent. -/
theorem rpow_npow_eq {x : ℝ} (hx : 0 ≤ x) (y : ℝ) (n m : ℕ)
    (h : y * (n : ℝ) = (m : ℝ)) : (x ^ y) ^ n = x ^ m := by
  rw [← Real.rpow_natCast (x ^ y) n, ← Real.rpow_mul hx, h, Real.rpow_natCast]

/-- Cross-breakpoint inequality at 10: the first branch tops out strictly
below where the second branch begins. -/
theorem gpm_key1 : Real.sqrt 10 * 3.5 < (10 : ℝ) ^ (0.45 : ℝ) * 8 := by
  have h2 : (0 : ℝ) ≤ (10 : ℝ) ^ (0.45 : ℝ) * 8 := by positivity
  apply lt_of_pow_lt_pow_left 20 h2
  rw [mul_pow, mul_pow]
  have hs : Real.sqrt 10 ^ (20 : ℕ) = (10 : ℝ) ^ (10 : ℕ) := by
    rw [show (20 : ℕ) = 2 * 10 from rfl, pow_mul, Real.sq_sqrt (by norm_num)]
  have hr : ((10 : ℝ) ^ (0.45 : ℝ)) ^ (20 : ℕ) = (10 : ℝ) ^ (9 : ℕ) :=
    rpow_npow_eq (by norm_num) 0.45 20 9 (by norm_num)
  rw [hs, hr]
  norm_num

/-- Cross-breakpoint inequality at 50. -/
theorem gpm_key2 : (50 : ℝ) ^ (0.45 : ℝ) * 8 < (50 : ℝ) ^ (0.38 : ℝ) * 15 := by
  have h2 : (0 : ℝ) ≤ (50 : ℝ) ^ (0.38 : ℝ) * 15 := by positivity
  apply lt_of_pow_lt_pow_left 100 h2
  rw [mul_pow, mul_pow]
  have hr1 : ((50 : ℝ) ^ (0.45 : ℝ)) ^ (100 : ℕ) = (50 : ℝ) ^ (45 : ℕ) :=
    rpow_npow_eq (by norm_num) 0.45 100 45 (by norm_num)
  have hr2 : ((50 : ℝ) ^ (0.38 : ℝ)) ^ (100 : ℕ) = (50 : ℝ) ^ (38 : ℕ) :=
    rpow_npow_eq (by norm_num) 0.38 100 38 (by norm_num)
  rw [hr1, hr2]
  norm_num

/-- Cross-breakpoint inequality at 200. -/
theorem gpm_key3 : (200 : ℝ) ^ (0.38 : ℝ) * 15 < (200 : ℝ) ^ (0.35 : ℝ) * 20 := by
  have h2 : (0 : ℝ) ≤ (200 : ℝ) ^ (0.35 : ℝ) * 20 := by positivity
  apply lt_of_pow_lt_pow_left 100 h2
  rw [mul_pow, mul_pow]
  have hr1 : ((200 : ℝ) ^ (0.38 : ℝ)) ^ (100 : ℕ) = (200 : ℝ) ^ (38 : ℕ) :=
    rpow_npow_eq (by norm_num) 0.38 100 38 (by norm_num)
  have hr2 : ((200 : ℝ) ^ (0.35 : ℝ)) ^ (100 : ℕ) = (200 : ℝ) ^ (35 : ℕ) :=
    rpow_npow_eq (by norm_num) 0.35 100 35 (by norm_num)
  rw [hr1, hr2]
  norm_num

/-- Upper bound of the first branch. -/
theorem gpm_ub1 {w : ℝ} (hw : 0 ≤ w) (h10 : w ≤ 10) :
    fixtureUnitsToGPM w ≤ Real.sqrt 10 * 3.5 := by
  rcases le_or_lt w 0 with h0 | h0
  · rw [gpm_nonpos h0]
    positivity
  · rw [gpm_branch1 h0 h10]
    exact mul_le_mul_of_nonneg_right (Real.sqrt_le_sqrt h10) (by norm_num)

/-- Upper bound of the second branch. -/
theorem gpm_ub2 {w : ℝ} (h10 : 10 < w) (h50 : w ≤ 50) :
    fixtureUnitsToGPM w ≤ (50 : ℝ) ^ (0.45 : ℝ) * 8 := by
  rw [gpm_branch2 h10 h50]
  exact mul_le_mul_of_nonneg_right
    (Real.rpow_le_rpow (by linarith) h50 (by norm_num)) (by norm_num)

/-- Upper bound of the third branch. -/
theorem gpm_ub3 {w : ℝ} (h50 : 50 < w) (h200 : w ≤ 200) :
    fixtureUnitsToGPM w ≤ (200 : ℝ) ^ (0.38 : ℝ) * 15 := by
  rw [gpm_branch3 h50 h200]
  exact mul_le_mul_of_nonneg_right
    (Real.rpow_le_rpow (by linarith) h200 (by norm_num)) (by norm_num)

/-- Beyond 200 the curve stays above the third-branch supremum. -/
theorem gpm_lb4 {b : ℝ} (hb : 200 < b) :
    (200 : ℝ) ^ (0.38 : ℝ) * 15 < fixtureUnitsToGPM b := by
  rw [gpm_branch4 hb]
  calc (200 : ℝ) ^ (0.38 : ℝ) * 15 < (200 : ℝ) ^ (0.35 : ℝ) * 20 := gpm_key3
    _ < b ^ (0.35 : ℝ) * 20 :=
      mul_lt_mul_of_pos_right (Real.rpow_lt_rpow (by norm_num) hb (by norm_num))
        (by norm_num)

/-- Beyond 50 the curve stays above the second-branch supremum. -/
theorem gpm_lb3 {b : ℝ} (hb : 50 < b) :
    (50 : ℝ) ^ (0.45 : ℝ) * 8 < fixtureUnitsToGPM b := by
  rcases le_or_lt b 200 with h200 | h200
  · rw [gpm_branch3 hb h200]
    calc (50 : ℝ) ^ (0.45 : ℝ) * 8 < (50 : ℝ) ^ (0.38 : ℝ) * 15 := gpm_key2
      _ ≤ b ^ (0.38 : ℝ) * 15 :=
        mul_le_mul_of_nonneg_right
          (Real.rpow_le_rpow (by norm_num) (le_of_lt hb) (by norm_num))
          (by norm_num)
  · calc (50 : ℝ) ^ (0.45 : ℝ) * 8 < (50 : ℝ) ^ (0.38 : ℝ) * 15 := gpm_key2
      _ ≤ (200 : ℝ) ^ (0.38 : ℝ) * 15 :=
        mul_le_mul_of_nonneg_right
          (Real.rpow_le_rpow (by norm_num) (by norm_num) (by norm_num))
          (by norm_num)
      _ < fixtureUnitsToGPM b := gpm_lb4 h200

/-- Beyond 10 the curve stays above the first-branch supremum. -/
theorem gpm_lb2 {b : ℝ} (hb : 10 < b) :
    Real.sqrt 10 * 3.5 < fixtureUnitsToGPM b := by
  rcases le_or_lt b 50 with h50 | h50
  · rw [gpm_branch2 hb h50]
    calc Real.sqrt 10 * 3.5 < (10 : ℝ) ^ (0.45 : ℝ) * 8 := gpm_key1
      _ ≤ b ^ (0.45 : ℝ) * 8 :=
        mul_le_mul_of_nonneg_right
          (Real.rpow_le_rpow (by norm_num) (le_of_lt hb) (by norm_num))
          (by norm_num)
  · calc Real.sqrt 10 * 3.5 < (10 : ℝ) ^ (0.45 : ℝ) * 8 := gpm_key1
      _ ≤ (50 : ℝ) ^ (0.45 : ℝ) * 8 :=
        mul_le_mul_of_nonneg_right
          (Real.rpow_le_rpow (by norm_num) (by norm_num) (by norm_num))
          (by norm_num)
      _ < fixtureUnitsToGPM b := gpm_lb3 h50

/-- `fixtureUnitsToGPM` is strictly increasing on the non-negative axis. -/
theorem gpm_strictMono {a b : ℝ} (ha : 0 ≤ a) (hab : a < b) :
    fixtureUnitsToGPM a < fixtureUnitsToGPM b := by
  rcases le_or_lt b 10 with hb10 | hb10
  · have hbpos : 0 < b := lt_of_le_of_lt ha hab
    rw [gpm_branch1 hbpos hb10]
    rcases le_or_lt a 0 with ha0 | ha0
    · rw [gpm_nonpos ha0]
      exact mul_pos (Real.sqrt_pos.mpr hbpos) (by norm_num)
    · rw [gpm_branch1 ha0 (by linarith)]
      exact mul_lt_mul_of_pos_right (Real.sqrt_lt_sqrt (le_of_lt ha0) hab)
        (by norm_num)
  · rcases le_or_lt a 10 with ha10 | ha10
    · exact lt_of_le_of_lt (gpm_ub1 ha ha10) (gpm_lb2 hb10)
    · rcases le_or_lt b 50 with hb50 | hb50
      · rw [gpm_branch2 ha10 (by linarith), gpm_branch2 hb10 hb50]
        exact mul_lt_mul_of_pos_right (Real.rpow_lt_rpow ha hab (by norm_num))
          (by norm_num)
      · rcases le_or_lt a 50 with ha50 | ha50
        · exact lt_of_le_of_lt (gpm_ub2 ha10 ha50) (gpm_lb3 hb50)
        · rcases le_or_lt b 200 with hb200 | hb200
          · rw [gpm_branch3 ha50 (by linarith), gpm_branch3 hb50 hb200]
            exact mul_lt_mul_of_pos_right
              (Real.rpow_lt_rpow ha hab (by norm_num)) (by norm_num)
          · rcases le_or_lt a 200 with ha200 | ha200
            · exact lt_of_le_of_lt (gpm_ub3 ha50 ha200) (gpm_lb4 hb200)
            · rw [gpm_branch4 ha200, gpm_branch4 hb200]
              exact mul_lt_mul_of_pos_right
                (Real.rpow_lt_rpow ha hab (by norm_num)) (by norm_num)

/-- Claim C5: `fixtureUnitsToGPM` is zero at and below zero, strictly
increasing on the non-negative axis across all three breakpoints, and each
branch computes exactly the documented closed form. -/
theorem fixtureUnitsToGPM_spec :
    fixtureUnitsToGPM 0 = 0 ∧
    (∀ w : ℝ, w ≤ 0 → fixtureUnitsToGPM w = 0) ∧
    (∀ a b : ℝ, 0 ≤ a → a < b → fixtureUnitsToGPM a < fixtureUnitsToGPM b) ∧
    (∀ w : ℝ, 0 < w → w ≤ 10 → fixtureUnitsToGPM w = Real.sqrt w * 3.5) ∧
    (∀ w : ℝ, 10 < w → w ≤ 50 → fixtureUnitsToGPM w = w ^ (0.45 : ℝ) * 8) ∧
    (∀ w : ℝ, 50 < w → w ≤ 200 → fixtureUnitsToGPM w = w ^ (0.38 : ℝ) * 15) ∧
    (∀ w : ℝ, 200 < w → fixtureUnitsToGPM w = w ^ (0.35 : ℝ) * 20) :=
  ⟨gpm_nonpos (le_refl 0), fun _ h => gpm_nonpos h,
    fun _ _ ha hab => gpm_strictMono ha hab,
    fun _ h0 h10 => gpm_branch1 h0 h10,
    fun _ h10 h50 => gpm_branch2 h10 h50,
    fun _ h50 h200 => gpm_branch3 h50 h200,
    fun _ h200 => gpm_branch4 h200⟩

/-- Witness for claim C5: concrete instances of the zero rule, the
monotonicity and a branch formula. -/
theorem fixtureUnitsToGPM_witness :
    ((0 : ℝ) ≤ 4 ∧ (4 : ℝ) < 9 ∧ (-1 : ℝ) ≤ 0) ∧
    fixtureUnitsToGPM 4 < fixtureUnitsToGPM 9 ∧
    fixtureUnitsToGPM (-1) = 0 ∧
    fixtureUnitsToGPM 4 = Real.sqrt 4 * 3.5 :=
  ⟨⟨by norm_num, by norm_num, by norm_num⟩,
    fixtureUnitsToGPM_spec.2.2.1 4 9 (by norm_num) (by norm_num),
    fixtureUnitsToGPM_spec.2.1 (-1) (by norm_num),
    fixtureUnitsToGPM_spec.2.2.2.1 4 (by norm_num) (by norm_num)⟩

/-! ## Pipe-sizing facts (claims C1 and C3) -/

/-- `round` is monotone on the reals. -/
theorem round_le_round_real {a b : ℝ} (h : a ≤ b) : round a ≤ round b := by
  rw [round_eq, round_eq]
  exact Int.floor_mono (by linarith)

/-- Evaluation rule for `round` on reals, by bracketing. -/
theorem round_eval_real {q : ℝ} {n : ℤ} (h1 : (n : ℝ) ≤ q + 1 / 2)
    (h2 : q + 1 / 2 < n + 1) : round q = n := by
  rw [round_eq]
  exact Int.floor_eq_iff.mpr ⟨h1, h2⟩

/-- `fixtureUnitsToGPM` at one fixture unit. -/
theorem gpm_one : fixtureUnitsToGPM 1 = 3.5 := by
  rw [gpm_branch1 one_pos (by norm_num), Real.sqrt_one, one_mul]

/-- `fixtureUnitsToGPM` at `10^20` fixture units (fourth branch, exact
power of ten). -/
theorem gpm_1e20 : fixtureUnitsToGPM ((10 : ℝ) ^ (20 : ℕ)) = 2 * 10 ^ 8 := by
  rw [gpm_branch4 (by norm_num)]
  have h : ((10 : ℝ) ^ (20 : ℕ)) ^ (0.35 : ℝ) = (10 : ℝ) ^ (7 : ℕ) := by
    rw [← Real.rpow_natCast (10 : ℝ) 20, ← Real.rpow_mul (by norm_num),
      show ((20 : ℕ) : ℝ) * (0.35 : ℝ) = ((7 : ℕ) : ℝ) by norm_num,
      Real.rpow_natCast]
  rw [h]
  norm_num

/-- At `10^20` fixture units the computed diameter exceeds the largest
tabulated pipe size. -/
theorem pipeDiameter_1e20 : 12 < pipeDiameter ((10 : ℝ) ^ (20 : ℕ)) := by
  unfold pipeDiameter pipeRequiredArea pipeFlowCFS
  rw [gpm_1e20]
  have hq : (1 : ℝ) ^ 2 <
      4 * ((2 : ℝ) * 10 ^ 8 / (7.48 * 60) / 5) / Real.pi := by
    rw [lt_div_iff Real.pi_pos]
    nlinarith [Real.pi_lt_315]
  have h1 : (1 : ℝ) <
      Real.sqrt (4 * ((2 : ℝ) * 10 ^ 8 / (7.48 * 60) / 5) / Real.pi) :=
    (Real.lt_sqrt (by norm_num)).mpr hq
  nlinarith [h1]

/-- At one fixture unit the computed diameter is above the smallest size. -/
theorem pipeDiameter_one_gt : (0.5 : ℝ) < pipeDiameter 1 := by
  unfold pipeDiameter pipeRequiredArea pipeFlowCFS
  rw [gpm_one]
  have hq : (1 / 24 : ℝ) ^ 2 <
      4 * ((3.5 : ℝ) / (7.48 * 60) / 5) / Real.pi := by
    rw [lt_div_iff Real.pi_pos]
    nlinarith [Real.pi_lt_315]
  have h1 : (1 / 24 : ℝ) <
      Real.sqrt (4 * ((3.5 : ℝ) / (7.48 * 60) / 5) / Real.pi) :=
    (Real.lt_sqrt (by norm_num)).mpr hq
  nlinarith [h1]

/-- At one fixture unit the computed diameter is at most 0.75 inches. -/
theorem pipeDiameter_one_le : pipeDiameter 1 ≤ 0.75 := by
  unfold pipeDiameter pipeRequiredArea pipeFlowCFS
  rw [gpm_one]
  have hsq : Real.sqrt (4 * ((3.5 : ℝ) / (7.48 * 60) / 5) / Real.pi) ≤ 1 / 16 := by
    rw [Real.sqrt_le_left (by norm_num)]
    rw [div_le_iff Real.pi_pos]
    nlinarith [Real.pi_gt_three]
  nlinarith [hsq]

/-- When the diameter exceeds every ladder entry the scan finds nothing. -/
theorem pipeSize_find_none {fu : ℝ} (h : 12 < pipeDiameter fu) :
    standardPipeSizes.find?
      (fun (s : ℚ) => decide ((s : ℝ) ≥ pipeDiameter fu)) = none := by
  rw [List.find?_eq_none]
  intro s hs
  simp only [ge_iff_le, decide_eq_true_eq, not_le]
  have hle : (s : ℝ) ≤ 12 := by fin_cases hs <;> norm_num
  linarith

/-- On ladder exhaustion the base selection is the smallest entry. -/
theorem pipeSelectedSize_exhaust {fu : ℝ} (h : 12 < pipeDiameter fu) :
    pipeSelectedSize fu = 1 / 2 := by
  unfold pipeSelectedSize
  rw [pipeSize_find_none h]
  norm_num [standardPipeSizes]

/-- `calculatePipeSize` either keeps the base selection or bumps it one
slot (and then the bumped index is in range). -/
theorem pipeSize_cases (fu len pa : ℝ) :
    calculatePipeSize fu len pa = pipeSelectedSize fu ∨
    (standardPipeSizes.indexOf (pipeSelectedSize fu) <
        standardPipeSizes.length - 1 ∧
      calculatePipeSize fu len pa =
        standardPipeSizes.getD
          (standardPipeSizes.indexOf (pipeSelectedSize fu) + 1) 0) := by
  simp only [calculatePipeSize]
  split_ifs with h1 h2
  · exact Or.inr ⟨h2, rfl⟩
  · exact Or.inl rfl
  · exact Or.inl rfl

/-- Ladder exhaustion of `calculatePipeSize`: above the largest entry the
result is the SMALLEST entry, possibly bumped once to 0.75. -/
theorem pipeSize_exhaust {fu len pa : ℝ} (h : 12 < pipeDiameter fu) :
    calculatePipeSize fu len pa = 1 / 2 ∨ calculatePipeSize fu len pa = 3 / 4 := by
  rcases pipeSize_cases fu len pa with hc | ⟨_, hc⟩
  · rw [hc, pipeSelectedSize_exhaust h]
    exact Or.inl rfl
  · rw [hc, pipeSelectedSize_exhaust h]
    right
    rw [show standardPipeSizes = (0.5 : ℚ) ::
      [0.75, 1, 1.25, 1.5, 2, 2.5, 3, 4, 5, 6, 8, 10, 12] from rfl,
      List.indexOf_cons_eq _ (by norm_num)]
    norm_num

/-- Concrete exhaustion run: `10^20` fixture units over a zero-length run
yields the smallest pipe size. -/
theorem pipeSize_1e20 : calculatePipeSize ((10 : ℝ) ^ (20 : ℕ)) 0 50 = 1 / 2 := by
  simp only [calculatePipeSize]
  rw [if_neg (by norm_num)]
  exact pipeSelectedSize_exhaust pipeDiameter_1e20

/-- Concrete small run: one fixture unit over a zero-length run yields a
0.75-inch pipe. -/
theorem pipeSize_one : calculatePipeSize 1 0 50 = 3 / 4 := by
  simp only [calculatePipeSize]
  rw [if_neg (by norm_num)]
  unfold pipeSelectedSize
  have hfind : standardPipeSizes.find?
      (fun (s : ℚ) => decide ((s : ℝ) ≥ pipeDiameter 1)) = some (0.75 : ℚ) := by
    rw [show standardPipeSizes = (0.5 : ℚ) :: (0.75 : ℚ) ::
      [1, 1.25, 1.5, 2, 2.5, 3, 4, 5, 6, 8, 10, 12] from rfl]
    rw [List.find?_cons_of_neg, List.find?_cons_of_pos]
    · simp only [ge_iff_le, decide_eq_true_eq]
      have := pipeDiameter_one_le
      push_cast
      linarith
    · simp only [ge_iff_le, decide_eq_true_eq, not_le]
      have := pipeDiameter_one_gt
      push_cast
      linarith
  rw [hfind]
  norm_num

/-- `calculatePipeSize` always returns a ladder entry. -/
theorem pipeSize_mem (fu len pa : ℝ) :
    calculatePipeSize fu len pa ∈ standardPipeSizes := by
  have hsel : pipeSelectedSize fu ∈ standardPipeSizes := by
    unfold pipeSelectedSize
    rcases hf : standardPipeSizes.find?
        (fun (s : ℚ) => decide ((s : ℝ) ≥ pipeDiameter fu)) with _ | s
    · simp only [Option.getD_none]
      exact getD_mem_of_lt _ _ _ (by norm_num [standardPipeSizes])
    · simp only [Option.getD_some]
      exact List.mem_of_find?_eq_some hf
  rcases pipeSize_cases fu len pa with hc | ⟨hidx, hc⟩
  · rw [hc]
    exact hsel
  · rw [hc]
    exact getD_mem_of_lt _ _ _ (by omega)

/-! ## Claim C1 -/

/-- At the baseline slope of 0.25 inches per foot the slope factor is one. -/
theorem adjustedDFU_quarter (d : ℝ) : adjustedDFU d 0.25 = d := by
  unfold adjustedDFU
  rw [show ((0.25 : ℝ) / 0.25) = 1 by norm_num, Real.sqrt_one, div_one]

/-- Claim C1 (counterexample to the claim as stated): at `10^20` fixture
units the computed diameter exceeds the largest tabulated size 12, yet
`calculatePipeSize` returns 0.5 inches — the smallest ladder entry, not
the largest. -/
theorem ladder_exhaustion_counterexample :
    12 < pipeDiameter ((10 : ℝ) ^ (20 : ℕ)) ∧
    calculatePipeSize ((10 : ℝ) ^ (20 : ℕ)) 0 50 = 1 / 2 ∧
    (1 / 2 : ℚ) ≠ 12 :=
  ⟨pipeDiameter_1e20, pipeSize_1e20, by norm_num⟩

/-- Claim C1 (amended): on ladder exhaustion `calculateBreakerSize`,
`calculateWireSize` and `calculateDrainPipeSize` return their ladder's
largest tabulated entry, but `calculatePipeSize` falls back to the
smallest entry 0.5 inches, possibly bumped once to 0.75 inches by the
pressure-loss rule. -/
theorem ladder_exhaustion_amended
    (bc : ℚ) (bcont : Bool) (wc : ℚ) (wm : String) (wt : ℚ)
    (dd ds : ℝ) (fu len pa : ℝ)
    (hb : 1200 < breakerRequiredRating bc bcont)
    (hw : ∀ p ∈ ampacityTable wm, p.2 * wireTempFactor wt < wc / 0.8)
    (hd : 3900 < adjustedDFU dd ds)
    (hp : 12 < pipeDiameter fu) :
    calculateBreakerSize bc bcont = 1200 ∧
    calculateWireSize wc wm wt = "1000 kcmil" ∧
    calculateDrainPipeSize dd ds = 12 ∧
    (calculatePipeSize fu len pa = 1 / 2 ∨ calculatePipeSize fu len pa = 3 / 4) :=
  ⟨breakerSize_exhaust hb, wireSize_exhaust hw, drainPipeSize_exhaust hd,
    pipeSize_exhaust hp⟩

/-- Witness for claim C1 at concrete over-range inputs for all four
functions. -/
theorem ladder_exhaustion_witness :
    (1200 < breakerRequiredRating 10000 true ∧
      (3900 : ℝ) < adjustedDFU 100000 0.25 ∧
      12 < pipeDiameter ((10 : ℝ) ^ (20 : ℕ))) ∧
    calculateBreakerSize 10000 true = 1200 ∧
    calculateWireSize 1000 "copper" 75 = "1000 kcmil" ∧
    calculateDrainPipeSize 100000 0.25 = 12 ∧
    (calculatePipeSize ((10 : ℝ) ^ (20 : ℕ)) 0 50 = 1 / 2 ∨
      calculatePipeSize ((10 : ℝ) ^ (20 : ℕ)) 0 50 = 3 / 4) := by
  have hb : (1200 : ℚ) < breakerRequiredRating 10000 true := by
    norm_num [breakerRequiredRating]
  have hw : ∀ p ∈ ampacityTable "copper",
      p.2 * wireTempFactor 75 < (1000 : ℚ) / 0.8 := by
    rw [show ampacityTable "copper" = copperAmpacity75CEntries from rfl]
    intro p hp
    fin_cases hp <;> norm_num [wireTempFactor]
  have hd : (3900 : ℝ) < adjustedDFU 100000 0.25 := by
    rw [adjustedDFU_quarter]
    norm_num
  have hp : (12 : ℝ) < pipeDiameter ((10 : ℝ) ^ (20 : ℕ)) := pipeDiameter_1e20
  have h := ladder_exhaustion_amended 10000 true 1000 "copper" 75 100000 0.25
    ((10 : ℝ) ^ (20 : ℕ)) 0 50 hb hw hd hp
  exact ⟨⟨hb, hd, hp⟩, h.1, h.2.1, h.2.2.1, h.2.2.2⟩

/-! ## Claim C3 -/

/-- Claim C3 (counterexample to the claim as stated): `calculatePipeSize`
is not monotone in the fixture-unit input — one fixture unit yields 0.75
inches while `10^20` fixture units yield 0.5 inches. -/
theorem pipeSize_not_monotone :
    (1 : ℝ) ≤ (10 : ℝ) ^ (20 : ℕ) ∧
    calculatePipeSize 1 0 50 = 3 / 4 ∧
    calculatePipeSize ((10 : ℝ) ^ (20 : ℕ)) 0 50 = 1 / 2 ∧
    ¬ calculatePipeSize 1 0 50 ≤ calculatePipeSize ((10 : ℝ) ^ (20 : ℕ)) 0 50 := by
  refine ⟨by norm_num, pipeSize_one, pipeSize_1e20, ?_⟩
  rw [pipeSize_one, pipeSize_1e20]
  norm_num

/-- Claim C3 (amended): `calculateBreakerSize`, `calculateWireSize` (as
the selected position in its ascending gauge table) and
`calculateDrainPipeSize` are monotone non-decreasing in their driving
inputs, and all four sizing functions always return a value drawn from
their fixed ladder; `calculatePipeSize` is not monotone. -/
theorem ladder_monotone_amended
    (bcont : Bool) (wm : String) (wt : ℚ) (ds : ℝ)
    (bc1 bc2 wc1 wc2 bc wc : ℚ) (dd1 dd2 dd : ℝ) (fu len pa : ℝ)
    (hb : bc1 ≤ bc2) (hw : wc1 ≤ wc2) (hd : dd1 ≤ dd2) :
    calculateBreakerSize bc1 bcont ≤ calculateBreakerSize bc2 bcont ∧
    wireGaugeRank (calculateWireSize wc1 wm wt) ≤
      wireGaugeRank (calculateWireSize wc2 wm wt) ∧
    calculateDrainPipeSize dd1 ds ≤ calculateDrainPipeSize dd2 ds ∧
    calculateBreakerSize bc bcont ∈ standardBreakerSizes ∧
    ((∃ p ∈ ampacityTable wm, calculateWireSize wc wm wt = p.1 ++ " AWG") ∨
      calculateWireSize wc wm wt = "1000 kcmil") ∧
    calculateDrainPipeSize dd ds ∈ drainCapacities.map Prod.fst ∧
    calculatePipeSize fu len pa ∈ standardPipeSizes :=
  ⟨breakerSize_mono bcont hb, wireSize_rank_mono wm wt hw,
    drainPipeSize_mono ds hd, breakerSize_mem bc bcont,
    wireSize_mem wc wm wt, drainPipeSize_mem dd ds, pipeSize_mem fu len pa⟩

/-- Witness for claim C3 at concrete inputs. -/
theorem ladder_monotone_witness :
    ((10 : ℚ) ≤ 100 ∧ (5 : ℝ) ≤ 300) ∧
    calculateBreakerSize 10 true ≤ calculateBreakerSize 100 true ∧
    wireGaugeRank (calculateWireSize 10 "copper" 75) ≤
      wireGaugeRank (calculateWireSize 100 "copper" 75) ∧
    calculateDrainPipeSize 5 0.25 ≤ calculateDrainPipeSize 300 0.25 ∧
    calculateBreakerSize 10 true ∈ standardBreakerSizes := by
  have h := ladder_monotone_amended true "copper" 75 0.25 10 100 10 100 10 10
    5 300 5 1 0 50 (by norm_num) (by norm_num) (by norm_num)
  exact ⟨⟨by norm_num, by norm_num⟩, h.1, h.2.1, h.2.2.1, h.2.2.2.1⟩

/-! ## Claim C6 -/

/-- The construction factor of ordinary (Type III) construction. -/
theorem constructionFactor_TypeIII : constructionFactor "Type III" = 1 := by
  unfold constructionFactor
  rw [show constructionFactors.find? (fun p => p.1 == "Type III") =
    some ("Type III", 1.0) from rfl]
  show (if (1.0 : ℚ) = 0 then 1 else (1.0 : ℚ)) = 1
  rw [if_neg (by norm_num)]
  norm_num

/-- The hydrant flow at 10000 sq ft of Type III construction:
`1·√10000·18 = 1800`, and rounding 1800/250 = 7.2 to the nearest integer
gives 7, hence 1750 GPM. -/
theorem hydrant_10000_TypeIII : calculateFireHydrantFlow 10000 "Type III" = 1750 := by
  simp only [calculateFireHydrantFlow, constructionFactor_TypeIII]
  have hsqrt : Real.sqrt 10000 = 100 := by
    rw [show (10000 : ℝ) = 100 ^ 2 by norm_num, Real.sqrt_sq (by norm_num)]
  rw [hsqrt]
  rw [show ((1 : ℚ) : ℝ) * 100 * 18 = 1800 by push_cast; ring]
  rw [min_eq_right (by norm_num : (1800 : ℝ) ≤ 12000),
    max_eq_right (by norm_num : (500 : ℝ) ≤ 1800)]
  rw [show round ((1800 : ℝ) / 250) = 7 from
    round_eval_real (by norm_num) (by norm_num)]
  norm_num

/-- Claim C6 (counterexample to the claim as stated): the concrete scenario
returns 1750 GPM, not 1800 GPM. -/
theorem hydrantFlow_counterexample :
    calculateFireHydrantFlow 10000 "Type III" = 1750 ∧
    calculateFireHydrantFlow 10000 "Type III" ≠ 1800 := by
  refine ⟨hydrant_10000_TypeIII, ?_⟩
  rw [hydrant_10000_TypeIII]
  norm_num

/-- Claim C6 (amended): `calculateFireHydrantFlow` is `C·√area·18` clamped
to [500, 12000] and rounded to the nearest 250 — hence a multiple of 250
within [500, 12000] — with factor 1.0 for unknown construction types; the
concrete scenario (10000 sq ft, Type III) yields 1750 GPM, not the 1800
GPM stated. -/
theorem hydrantFlow_amended (area : ℝ) (ct : String) :
    (∃ k : ℤ, calculateFireHydrantFlow area ct = 250 * k) ∧
    500 ≤ calculateFireHydrantFlow area ct ∧
    calculateFireHydrantFlow area ct ≤ 12000 ∧
    (ct ∉ ["Type I", "Type II", "Type III", "Type IV", "Type V"] →
      constructionFactor ct = 1) ∧
    calculateFireHydrantFlow 10000 "Type III" = 1750 := by
  have h1 : (500 : ℝ) ≤ max 500 (min 12000
      (((constructionFactor ct : ℚ) : ℝ) * Real.sqrt area * 18)) :=
    le_max_left _ _
  have h2 : max 500 (min 12000
      (((constructionFactor ct : ℚ) : ℝ) * Real.sqrt area * 18)) ≤ 12000 :=
    max_le (by norm_num) (min_le_left _ _)
  have hr1 : (2 : ℤ) ≤ round (max 500 (min 12000
      (((constructionFactor ct : ℚ) : ℝ) * Real.sqrt area * 18)) / 250) := by
    have h2t : ((2 : ℤ) : ℝ) ≤ max 500 (min 12000
        (((constructionFactor ct : ℚ) : ℝ) * Real.sqrt area * 18)) / 250 := by
      rw [le_div_iff (by norm_num : (0 : ℝ) < 250)]
      push_cast
      linarith
    have := round_le_round_real h2t
    rwa [round_intCast] at this
  have hr2 : round (max 500 (min 12000
      (((constructionFactor ct : ℚ) : ℝ) * Real.sqrt area * 18)) / 250) ≤ 48 := by
    have h2t : max 500 (min 12000
        (((constructionFactor ct : ℚ) : ℝ) * Real.sqrt area * 18)) / 250 ≤
        ((48 : ℤ) : ℝ) := by
      rw [div_le_iff (by norm_num : (0 : ℝ) < 250)]
      push_cast
      linarith
    have := round_le_round_real h2t
    rwa [round_intCast] at this
  refine ⟨⟨round (max 500 (min 12000
      (((constructionFactor ct : ℚ) : ℝ) * Real.sqrt area * 18)) / 250),
      by simp only [calculateFireHydrantFlow]; ring⟩, ?_, ?_, ?_,
    hydrant_10000_TypeIII⟩
  · simp only [calculateFireHydrantFlow]
    have : ((2 : ℤ) : ℝ) ≤ ((round (max 500 (min 12000
        (((constructionFactor ct : ℚ) : ℝ) * Real.sqrt area * 18)) / 250) :
          ℤ) : ℝ) := by
      exact_mod_cast hr1
    push_cast at this ⊢
    linarith
  · simp only [calculateFireHydrantFlow]
    have : ((round (max 500 (min 12000
        (((constructionFactor ct : ℚ) : ℝ) * Real.sqrt area * 18)) / 250) :
          ℤ) : ℝ) ≤ ((48 : ℤ) : ℝ) := by
      exact_mod_cast hr2
    push_cast at this ⊢
    linarith
  · intro hct
    unfold constructionFactor
    have hnone : constructionFactors.find? (fun p => p.1 == ct) = none := by
      rw [List.find?_eq_none]
      intro p hp
      fin_cases hp <;>
        · simp only [beq_iff_eq]
          intro he
          exact hct (by simp [← he])
    rw [hnone]

/-- Witness for claim C6 at concrete inputs. -/
theorem hydrantFlow_witness :
    ("Bogus" ∉ ["Type I", "Type II", "Type III", "Type IV", "Type V"]) ∧
    constructionFactor "Bogus" = 1 ∧
    (∃ k : ℤ, calculateFireHydrantFlow 40000 "Type V" = 250 * k) ∧
    500 ≤ calculateFireHydrantFlow 40000 "Type V" := by
  refine ⟨by decide, ?_, (hydrantFlow_amended 40000 "Type V").1,
    (hydrantFlow_amended 40000 "Type V").2.1⟩
  exact (hydrantFlow_amended 0 "Bogus").2.2.2.1 (by decide)
